import Mathlib

/-!
Shallow embedding of the `elliot` actor library core (src/actor.rs,
src/behavior.rs, src/error.rs, src/lib.rs) and proofs about it.

The embedding has two layers:

* a functional layer: the dispatch loop (`receive`, `empty_behavor`,
  `ignore_behavor`, `receive_next`) viewed as a function of the sequence of
  messages the mailbox delivers, plus the `IntoResult` outcome-normalization
  family as a recursive function over a closed universe of handler return
  shapes;

* a small-step layer: a labelled configuration (mailbox queue, live external
  sender count, liveness of the sender clone held by the dispatch task's own
  `ActorContext`, receive-endpoint openness, loop phase) with a step relation
  `Step` modelling concurrent senders interleaved with the dispatch task, as
  produced by `actor_of` / `ActorSystem::spawn`.
-/

namespace Elliot

/-- Rust `enum Behaviors` from src/behavior.rs: the five transition
directives a handler can return. -/
inductive Behaviors where
  | Empty
  | Ignore
  | Same
  | Unhandled
  | Stopped
deriving Repr, DecidableEq

/-- Rust `struct ActorRefGone<T>(pub T)` from src/error.rs: a failed send
carrying the rejected message back to the caller. -/
structure ActorRefGone (T : Type) where
  msg : T
deriving Repr, DecidableEq

/-- Model of Rust `BoxErr = Box<dyn StdError + Send + Sync>` as seen by an
actor with message type `T`. The type-erased box either holds an
`ActorRefGone<T>` for this very `T` (so `downcast::<ActorRefGone<T>>`
succeeds) or some other error value, kept opaque; `ActorRefGone<U>` for a
different `U` falls in the second constructor because the downcast fails. -/
inductive BoxErr (T : Type) where
  | goneSelf (g : ActorRefGone T)
  | otherBox (tag : Nat)
deriving Repr, DecidableEq

/-- Model of `Box<dyn Error>::downcast::<ActorRefGone<T>>` from
src/behavior.rs line 188: success yields the typed `ActorRefGone<T>`,
failure returns the original box unchanged. -/
def BoxErr.downcastGone {T : Type} : BoxErr T → Except (BoxErr T) (ActorRefGone T)
  | .goneSelf g => .ok g
  | .otherBox tag => .error (.otherBox tag)

/-- Rust `enum Error<T>` from src/error.rs (the unit payloads `NoActorRef`
and `Stopped` are collapsed into their constructors). -/
inductive Error (T : Type) where
  | NoActorRef
  | Stopped
  | Unhandled (g : ActorRefGone T)
  | Crashed (e : BoxErr T)
deriving Repr, DecidableEq

/-- Closed universe of handler return shapes covered by the `IntoResult`
impls in src/behavior.rs lines 165-205: a bare `Behaviors` directive, the
unit value `()`, `Option` of a shape, and `Result` of a shape with a boxed
error side. -/
inductive RetVal (T : Type) where
  | beh (b : Behaviors)
  | unit
  | opt (v : Option (RetVal T))
  | res (v : Except (BoxErr T) (RetVal T))

/-- Rust `IntoResult::into_result` (src/behavior.rs lines 161-205) as one
recursive function over the shape universe: a directive maps to itself
tagged success; unit maps to `Same`; `None` maps to `Stopped` and `Some`
recurses; `Ok` recurses and `Err` is downcast — `ActorRefGone<T>` for this
actor's own `T` becomes `Error::Unhandled`, anything else becomes
`Error::Crashed` carrying the original box. -/
def intoResult {T : Type} : RetVal T → Except (Error T) Behaviors
  | .beh b => .ok b
  | .unit => .ok .Same
  | .opt none => .ok .Stopped
  | .opt (some v) => intoResult v
  | .res (.ok v) => intoResult v
  | .res (.error e) =>
    match BoxErr.downcastGone e with
    | .ok g => .error (.Unhandled g)
    | .error e => .error (.Crashed e)

/-- Outcome of a drain loop (`empty_behavor` / `ignore_behavor`) run against
the stream of messages the mailbox will still deliver: `noActorRef` models
`return Err(NoActorRef)` when the channel reports disconnected, `suspend`
models the loop parked forever inside `rx.recv().await` because the channel
stays open and no further message arrives. -/
inductive DrainExit where
  | noActorRef
  | suspend
deriving Repr, DecidableEq

/-- Rust `empty_behavor` (src/behavior.rs lines 112-121) as a function of
the delivered message stream: `msgs` is the sequence of messages
`receive_next` will still yield, `closed` tells whether afterwards the
channel reports disconnected (`receive_next` returns `None`) or stays open
(the loop suspends). Each delivered message is dequeued and dropped. -/
def empty_behavor {T : Type} : List T → Bool → DrainExit
  | [], true => .noActorRef
  | [], false => .suspend
  | _ :: rest, closed => empty_behavor rest closed

/-- Rust `ignore_behavor` (src/behavior.rs lines 123-131), embedded the same
way as `empty_behavor`; the two source functions have identical bodies. -/
def ignore_behavor {T : Type} : List T → Bool → DrainExit
  | [], true => .noActorRef
  | [], false => .suspend
  | _ :: rest, closed => ignore_behavor rest closed

/-- Outcome of the dispatch loop `receive` (src/behavior.rs lines 71-101)
run against a delivered message stream: every actual `return` of the Rust
function is an `Err(Error<T>)`, and `suspend` models the loop parked forever
awaiting a message on a channel that never closes. -/
inductive LoopExit (T : Type) where
  | err (e : Error T)
  | suspend
deriving Repr, DecidableEq

/-- Rust `receive` (src/behavior.rs lines 71-101) as a function of the
delivered message stream, with the handler already composed with outcome
normalization (`behavior.receive(...).await` through `MapErr` yields a
`Result<Behaviors, Error<T>>`). `Same` and `Unhandled` continue the loop,
`Empty` and `Ignore` delegate to the drain loops with
`.map_err(Error::NoActorRef)`, `Stopped` drops the receiver and returns
`Err(Error::Stopped)`, a normalization error returns it; an exhausted open
stream suspends and an exhausted closed stream is `Err(Error::NoActorRef)`. -/
def receive {T : Type} (h : T → Except (Error T) Behaviors) :
    List T → Bool → LoopExit T
  | [], closed => if closed then .err .NoActorRef else .suspend
  | m :: rest, closed =>
    match h m with
    | .ok .Empty =>
      match empty_behavor rest closed with
      | .noActorRef => .err .NoActorRef
      | .suspend => .suspend
    | .ok .Ignore =>
      match ignore_behavor rest closed with
      | .noActorRef => .err .NoActorRef
      | .suspend => .suspend
    | .ok .Same => receive h rest closed
    | .ok .Unhandled => receive h rest closed
    | .ok .Stopped => .err .Stopped
    | .error e => .err e

/-- The dispatch loop over a raw handler, composing the handler's shaped
return value with `intoResult` exactly as the generated `Behavior` impl does
through `MapErr` (src/behavior.rs lines 55-69 and 207-228). -/
def receiveRaw {T : Type} (f : T → RetVal T) : List T → Bool → LoopExit T :=
  receive (fun m => intoResult (f m))

/-- Rust `ActorRef<T>` (src/actor.rs lines 9-11) wraps the channel send
endpoint; modelled by the identity of the underlying channel. -/
structure ActorRef (T : Type) where
  chan : Nat
deriving Repr, DecidableEq

/-- Rust `ActorContext<T>` (src/actor.rs lines 30-36): the actor's own
handle plus a shared name. The Rust field is called `this`, which is a
reserved word in Lean, hence `thisRef`. -/
structure ActorContext (T : Type) where
  thisRef : ActorRef T
  name : String
deriving Repr, DecidableEq

/-- Rust `ActorContext::this` (src/actor.rs lines 43-45): a clone of the
actor's own handle; clones are value-identical in the model. -/
def ActorContext.this {T : Type} (ctx : ActorContext T) : ActorRef T :=
  ctx.thisRef

/-- Rust `State<T>` (src/actor.rs line 83): a newtype around a private
per-actor state value. -/
structure State (S : Type) where
  val : S
deriving Repr, DecidableEq

/-- Rust `SystemBus<T>` (src/actor.rs line 76): a placeholder bus holding
`Option<T>`. -/
structure SystemBus (E : Type) where
  inner : Option E
deriving Repr, DecidableEq

/-- Rust `SystemBus::publish` (src/actor.rs line 79): a no-op. -/
def SystemBus.publish {E : Type} (_bus : SystemBus E) (_msg : E) : Unit :=
  ()

/-- Rust `impl FromContext<T> for ActorContext<T>` (src/behavior.rs lines
137-141): `Clone::clone(context)`. -/
def ActorContext.from_context {T : Type} (context : ActorContext T) : ActorContext T :=
  context

/-- Rust `impl FromContext<T> for ActorRef<T>` (src/behavior.rs lines
143-147): `context.this()`. -/
def ActorRef.from_context {T : Type} (context : ActorContext T) : ActorRef T :=
  context.this

/-- Rust `impl FromContext<T> for State<S> where S: Default` (src/behavior.rs
lines 149-153): `Self(Default::default())`, ignoring the context; Rust
`Default` is modelled by `Inhabited`. -/
def State.from_context {T S : Type} [Inhabited S] (_context : ActorContext T) : State S :=
  ⟨default⟩

/-- Rust `impl FromContext<T> for SystemBus<E>` (src/behavior.rs lines
155-159): `Self(None)`, ignoring the context. -/
def SystemBus.from_context {T E : Type} (_context : ActorContext T) : SystemBus E :=
  ⟨none⟩

/-- Mailbox channel state as observable by the tokio unbounded mpsc
endpoints: the queued messages in FIFO order, the number of live `ActorRef`
clones held outside the dispatch task, whether the sender clone inside the
dispatch task's own `ActorContext` (created by `actor_of`, src/behavior.rs
lines 29-39) is still alive, and whether the receive endpoint has not been
dropped. -/
structure Mailbox (T : Type) where
  queue : List T
  extRefs : Nat
  ctxAlive : Bool
  rxOpen : Bool
deriving Repr, DecidableEq

/-- Number of live senders of the channel: external handles plus the one
held by the dispatch task's context. The tokio channel reports disconnected
exactly when this reaches zero. -/
def Mailbox.senderCount {T : Type} (mb : Mailbox T) : Nat :=
  mb.extRefs + (if mb.ctxAlive then 1 else 0)

/-- Tokio `SendError<T>` carries the rejected message (`e.0` in
src/actor.rs line 16). -/
structure SendError (T : Type) where
  msg : T
deriving Repr, DecidableEq

/-- Tokio `UnboundedSender::send`: enqueues and succeeds while the receive
endpoint is open, otherwise fails returning the message. -/
def sendTx {T : Type} (mb : Mailbox T) (m : T) : Mailbox T × Except (SendError T) Unit :=
  if mb.rxOpen then ({ mb with queue := mb.queue ++ [m] }, .ok ()) else (mb, .error ⟨m⟩)

/-- Rust `ActorRef::tell` (src/actor.rs lines 14-19): forwards to
`tx.send`, rewrapping a failure as `ActorRefGone(e.0)`. -/
def tell {T : Type} (mb : Mailbox T) (m : T) : Mailbox T × Except (ActorRefGone T) Unit :=
  match sendTx mb m with
  | (mb2, .ok _) => (mb2, .ok ())
  | (mb2, .error e) => (mb2, .error ⟨e.msg⟩)

/-- Tokio `UnboundedSender::is_closed`: true iff the receive endpoint has
been dropped. -/
def tx_is_closed {T : Type} (mb : Mailbox T) : Bool :=
  !mb.rxOpen

/-- Rust `ActorRef::is_alive` (src/actor.rs lines 21-23):
`tx.is_closed() == false`. -/
def is_alive {T : Type} (mb : Mailbox T) : Bool :=
  tx_is_closed mb == false

/-- Rust `ActorRef::wait_for_stop` (src/actor.rs lines 25-27) awaits
`tx.closed()`; the call has resolved exactly when the receive endpoint has
been dropped. -/
def waitForStopResolved {T : Type} (mb : Mailbox T) : Bool :=
  tx_is_closed mb

/-- Instantaneous observation made by `receive_next` (src/behavior.rs lines
103-110): a queued message is dequeued; an empty queue with no live sender
is the disconnected state (`try_recv` returns `Disconnected`, so
`receive_next` returns `None`); an empty queue with a live sender parks the
task in `rx.recv().await`. -/
inductive RecvOutcome (T : Type) where
  | msg (m : T)
  | blocked
  | disconnected
deriving Repr, DecidableEq

/-- Observation of the mailbox by `receive_next` at one instant. -/
def receiveNextObs {T : Type} (mb : Mailbox T) : RecvOutcome T :=
  match mb.queue with
  | m :: _ => .msg m
  | [] => if mb.senderCount = 0 then .disconnected else .blocked

/-- Boolean test for the disconnected observation. -/
def RecvOutcome.isDisconnected {T : Type} : RecvOutcome T → Bool
  | .disconnected => true
  | _ => false

/-- Phase of the dispatch task spawned by `actor_of`: at the top of the
`receive` loop awaiting a message, inside one invocation of the behavior,
inside one of the drain loops after an `Empty`/`Ignore` directive, or
terminated with the `Error<T>` the loop returned. -/
inductive Phase (T : Type) where
  | running
  | handling (m : T)
  | draining
  | exited (e : Error T)
deriving Repr, DecidableEq

/-- Boolean test for a terminated dispatch task. -/
def Phase.isExited {T : Type} : Phase T → Bool
  | .exited _ => true
  | _ => false

/-- Configuration of one spawned actor together with its mailbox. -/
structure Config (T : Type) where
  mb : Mailbox T
  phase : Phase T
deriving Repr, DecidableEq

/-- Small-step interleaving semantics of one actor spawned by `actor_of`
(src/behavior.rs lines 29-39) together with the holders of its external
handles, for a behavior whose normalized handler is `h`. External senders
may clone handles, drop handles, and `tell` while the receive endpoint is
open; the dispatch task dequeues in FIFO order, runs one invocation at a
time, applies the directive from src/behavior.rs lines 85-99, and drops both
the receive endpoint and its context (hence the context's sender clone)
exactly when the loop returns. The disconnect steps require every sender —
external handles and the context's clone alike — to be gone, as tokio's
`Disconnected` does. -/
inductive Step {T : Type} (h : T → Except (Error T) Behaviors) :
    Config T → Config T → Prop where
  | tellOk (q : List T) (n : Nat) (ca : Bool) (ph : Phase T) (m : T) :
      Step h ⟨⟨q, n + 1, ca, true⟩, ph⟩ ⟨⟨q ++ [m], n + 1, ca, true⟩, ph⟩
  | cloneRef (q : List T) (n : Nat) (ca ro : Bool) (ph : Phase T) :
      Step h ⟨⟨q, n + 1, ca, ro⟩, ph⟩ ⟨⟨q, n + 2, ca, ro⟩, ph⟩
  | dropRef (q : List T) (n : Nat) (ca ro : Bool) (ph : Phase T) :
      Step h ⟨⟨q, n + 1, ca, ro⟩, ph⟩ ⟨⟨q, n, ca, ro⟩, ph⟩
  | fetchRun (m : T) (q : List T) (n : Nat) (ca ro : Bool) :
      Step h ⟨⟨m :: q, n, ca, ro⟩, .running⟩ ⟨⟨q, n, ca, ro⟩, .handling m⟩
  | handleSame (mb : Mailbox T) (m : T) :
      h m = .ok .Same → Step h ⟨mb, .handling m⟩ ⟨mb, .running⟩
  | handleUnhandled (mb : Mailbox T) (m : T) :
      h m = .ok .Unhandled → Step h ⟨mb, .handling m⟩ ⟨mb, .running⟩
  | handleEmpty (mb : Mailbox T) (m : T) :
      h m = .ok .Empty → Step h ⟨mb, .handling m⟩ ⟨mb, .draining⟩
  | handleIgnore (mb : Mailbox T) (m : T) :
      h m = .ok .Ignore → Step h ⟨mb, .handling m⟩ ⟨mb, .draining⟩
  | handleStop (q : List T) (n : Nat) (ca ro : Bool) (m : T) :
      h m = .ok .Stopped →
      Step h ⟨⟨q, n, ca, ro⟩, .handling m⟩ ⟨⟨q, n, false, false⟩, .exited .Stopped⟩
  | handleErr (q : List T) (n : Nat) (ca ro : Bool) (m : T) (e : Error T) :
      h m = .error e →
      Step h ⟨⟨q, n, ca, ro⟩, .handling m⟩ ⟨⟨q, n, false, false⟩, .exited e⟩
  | fetchDrain (m : T) (q : List T) (n : Nat) (ca ro : Bool) :
      Step h ⟨⟨m :: q, n, ca, ro⟩, .draining⟩ ⟨⟨q, n, ca, ro⟩, .draining⟩
  | disconnectRun (ro : Bool) :
      Step h ⟨⟨[], 0, false, ro⟩, .running⟩ ⟨⟨[], 0, false, false⟩, .exited .NoActorRef⟩
  | disconnectDrain (ro : Bool) :
      Step h ⟨⟨[], 0, false, ro⟩, .draining⟩ ⟨⟨[], 0, false, false⟩, .exited .NoActorRef⟩

/-- State right after `actor_of` returns: empty queue, the one external
handle just returned to the spawner, the context's sender clone alive
inside the dispatch task, the receive endpoint open, the loop at its top. -/
def initConfig (T : Type) : Config T :=
  ⟨⟨[], 1, true, true⟩, .running⟩

/-- Configurations the spawned actor system can reach. -/
def Reachable {T : Type} (h : T → Except (Error T) Behaviors) (c : Config T) : Prop :=
  Relation.ReflTransGen (Step h) (initConfig T) c

/-- Liveness invariant tying the context-held sender and the receive
endpoint to the loop phase: both are alive exactly while the loop has not
returned. -/
def LiveInv {T : Type} (c : Config T) : Prop :=
  (c.phase.isExited = false → c.mb.ctxAlive = true ∧ c.mb.rxOpen = true) ∧
  (c.phase.isExited = true → c.mb.ctxAlive = false ∧ c.mb.rxOpen = false)

/-- Terminal invariant: once the loop has returned with error `e`, the phase
stays `exited e` and the receive endpoint stays dropped under every further
step. -/
def DeadInv {T : Type} (e : Error T) (c : Config T) : Prop :=
  c.phase = .exited e ∧ c.mb.rxOpen = false ∧ c.mb.ctxAlive = false

/-- Events emitted by the dispatch loop around each invocation of the
behavior: `invokeStart m` when `behavior.receive(&context, m)` begins and
`invokeEnd m` when its future completes (src/behavior.rs line 84). -/
inductive Ev (T : Type) where
  | invokeStart (m : T)
  | invokeEnd (m : T)
deriving Repr, DecidableEq

/-- Invocation-event trace of the dispatch loop `receive` over the messages
delivered by the mailbox in their total enqueue order. The loop awaits each
invocation to completion before dequeuing again; after `Empty`/`Ignore` the
drain loops discard messages without invoking the behavior, and after
`Stopped` or an error the loop exits, so no further events appear. -/
def runTrace {T : Type} (h : T → Except (Error T) Behaviors) : List T → List (Ev T)
  | [] => []
  | m :: rest =>
    Ev.invokeStart m :: Ev.invokeEnd m ::
      (match h m with
       | .ok .Same => runTrace h rest
       | .ok .Unhandled => runTrace h rest
       | _ => [])

/-- Sequence of messages the behavior is invoked on, read off a trace. -/
def handledMsgs {T : Type} (tr : List (Ev T)) : List T :=
  tr.filterMap (fun e =>
    match e with
    | .invokeStart m => some m
    | _ => none)

/-- A trace in which invocations never overlap: every started invocation
ends before the next one starts. -/
inductive NonOverlapping {T : Type} : List (Ev T) → Prop where
  | nil : NonOverlapping []
  | pair (m : T) (rest : List (Ev T)) :
      NonOverlapping rest →
      NonOverlapping (Ev.invokeStart m :: Ev.invokeEnd m :: rest)

theorem step_preserves_liveInv {T : Type} {h : T → Except (Error T) Behaviors}
    {c c2 : Config T} (hinv : LiveInv c) (hs : Step h c c2) : LiveInv c2 := by
  cases hs <;> simp_all [LiveInv, Phase.isExited]

theorem reachable_liveInv {T : Type} {h : T → Except (Error T) Behaviors}
    {c : Config T} (hr : Reachable h c) : LiveInv c := by
  induction hr with
  | refl => simp [LiveInv, initConfig, Phase.isExited]
  | tail _ hstep ih => exact step_preserves_liveInv ih hstep

theorem step_preserves_deadInv {T : Type} {h : T → Except (Error T) Behaviors}
    {e : Error T} {c c2 : Config T} (hinv : DeadInv e c) (hs : Step h c c2) :
    DeadInv e c2 := by
  cases hs <;> simp_all [DeadInv]

theorem steps_preserve_deadInv {T : Type} {h : T → Except (Error T) Behaviors}
    {e : Error T} {c c2 : Config T} (hs : Relation.ReflTransGen (Step h) c c2)
    (hinv : DeadInv e c) : DeadInv e c2 := by
  induction hs with
  | refl => exact hinv
  | tail _ hstep ih => exact step_preserves_deadInv ih hstep

/-- C4: normalization of a fallible handler return recurses into the
success contents; a failure that downcasts to `ActorRefGone` of this
actor's own message type becomes `Error::Unhandled` holding that value,
any other failure becomes `Error::Crashed` carrying the original box, and
the reduction composes through a fallible-of-optional-of-directive shape
in three recursive steps. -/
theorem c4_fallible_normalization {T : Type} (o : RetVal T) (g : ActorRefGone T)
    (tag : Nat) (b : Behaviors) :
    intoResult (RetVal.res (.ok o)) = intoResult o ∧
    intoResult (RetVal.res (.error (.goneSelf g))) = .error (.Unhandled g) ∧
    intoResult (RetVal.res (.error (.otherBox tag)) : RetVal T)
      = .error (.Crashed (.otherBox tag)) ∧
    intoResult (RetVal.res (.ok (.opt (some (.beh b)))) : RetVal T) = .ok b :=
  ⟨rfl, rfl, rfl, rfl⟩

/-- C5: normalization maps a bare unit return to the same successful
directive as an explicit `Same`, an empty optional to the same successful
directive as an explicit `Stopped`, and a bare directive to itself tagged
success; consequently a handler returning unit drives the dispatch loop
identically to one returning `Same`, and one returning an empty optional
identically to one returning `Stopped`. -/
theorem c5_normalization_equivalence {T : Type} (b : Behaviors)
    (msgs : List T) (closed : Bool) :
    intoResult (RetVal.unit : RetVal T) = intoResult (RetVal.beh .Same) ∧
    intoResult (RetVal.opt none : RetVal T) = intoResult (RetVal.beh .Stopped) ∧
    intoResult (RetVal.beh b : RetVal T) = .ok b ∧
    receiveRaw (fun _ : T => RetVal.unit) msgs closed
      = receiveRaw (fun _ : T => RetVal.beh .Same) msgs closed ∧
    receiveRaw (fun _ : T => RetVal.opt none) msgs closed
      = receiveRaw (fun _ : T => RetVal.beh .Stopped) msgs closed :=
  ⟨rfl, rfl, rfl, rfl, rfl⟩

/-- C6: the drain loop entered on an `Empty` directive and the drain loop
entered on an `Ignore` directive compute the same function of the remaining
delivered message stream. -/
theorem c6_drain_modes_equivalent {T : Type} (msgs : List T) (closed : Bool) :
    empty_behavor msgs closed = ignore_behavor msgs closed := by
  induction msgs with
  | nil => cases closed <;> rfl
  | cons m rest ih => simpa [empty_behavor, ignore_behavor] using ih

/-- C7: `tell` succeeds exactly when the receive endpoint is still open;
when it fails it enqueues nothing and returns the original message back
inside the `ActorRefGone` error value. -/
theorem c7_tell_no_silent_drop {T : Type} (mb : Mailbox T) (m : T) :
    (tell mb m).2
      = (if mb.rxOpen then Except.ok () else Except.error ⟨m⟩) ∧
    (tell mb m).1
      = (if mb.rxOpen then { mb with queue := mb.queue ++ [m] } else mb) ∧
    ((tell mb m).2 = Except.ok () ↔ mb.rxOpen = true) ∧
    ((tell mb m).2 = Except.ok () ↔ is_alive mb = true) := by
  by_cases hro : mb.rxOpen <;>
    simp [tell, sendTx, is_alive, tx_is_closed, hro]

/-- C8: every extractor builds its value from the identity context alone —
the `ActorContext` extractor clones the context, the `ActorRef` extractor
yields the actor's own handle, the `State` extractor yields a
default-constructed private container, and the `SystemBus` extractor yields
the stub bus whose `publish` is a no-op. None of the four takes the message
as an input. -/
theorem c8_extractors_from_context_only {T S E : Type} [Inhabited S]
    (ctx : ActorContext T) (e : E) :
    ActorContext.from_context ctx = ctx ∧
    ActorRef.from_context ctx = ctx.this ∧
    (State.from_context ctx : State S) = ⟨default⟩ ∧
    (SystemBus.from_context ctx : SystemBus E) = ⟨none⟩ ∧
    SystemBus.publish (SystemBus.from_context ctx : SystemBus E) e = () :=
  ⟨rfl, rfl, rfl, rfl, rfl⟩

theorem handledMsgs_cons {T : Type} (m : T) (tr : List (Ev T)) :
    handledMsgs (Ev.invokeStart m :: Ev.invokeEnd m :: tr) = m :: handledMsgs tr := by
  simp [handledMsgs]

theorem handledMsgs_nil {T : Type} : handledMsgs ([] : List (Ev T)) = [] :=
  rfl

/-- C9: over the messages delivered in their total enqueue order, the
behavior is invoked on a prefix of that order — same order, each message at
most once — and the invocation trace strictly alternates start and end, so
one invocation completes before the next begins; for a handler that always
continues (`Same`), every enqueued message is observed. Concurrent
multi-handle sending enters through the premise of the claim: the mpsc
queue linearizes all sends into the single total order `msgs`. -/
theorem c9_order_and_mutual_exclusion {T : Type}
    (h : T → Except (Error T) Behaviors) (msgs : List T) :
    (∃ n, handledMsgs (runTrace h msgs) = msgs.take n) ∧
    NonOverlapping (runTrace h msgs) ∧
    handledMsgs (runTrace (fun _ : T => Except.ok Behaviors.Same) msgs) = msgs := by
  refine ⟨?_, ?_, ?_⟩
  · induction msgs with
    | nil => exact ⟨0, rfl⟩
    | cons m rest ih =>
      obtain ⟨n, hn⟩ := ih
      cases hhm : h m with
      | ok b =>
        cases b with
        | Same => exact ⟨n + 1, by simp [runTrace, hhm, handledMsgs_cons, hn]⟩
        | Unhandled => exact ⟨n + 1, by simp [runTrace, hhm, handledMsgs_cons, hn]⟩
        | Empty => exact ⟨1, by simp [runTrace, hhm, handledMsgs_cons, handledMsgs_nil]⟩
        | Ignore => exact ⟨1, by simp [runTrace, hhm, handledMsgs_cons, handledMsgs_nil]⟩
        | Stopped => exact ⟨1, by simp [runTrace, hhm, handledMsgs_cons, handledMsgs_nil]⟩
      | error e => exact ⟨1, by simp [runTrace, hhm, handledMsgs_cons, handledMsgs_nil]⟩
  · induction msgs with
    | nil => exact .nil
    | cons m rest ih =>
      cases hhm : h m with
      | ok b =>
        cases b with
        | Same =>
          have : runTrace h (m :: rest)
              = Ev.invokeStart m :: Ev.invokeEnd m :: runTrace h rest := by
            simp [runTrace, hhm]
          rw [this]; exact .pair m _ ih
        | Unhandled =>
          have : runTrace h (m :: rest)
              = Ev.invokeStart m :: Ev.invokeEnd m :: runTrace h rest := by
            simp [runTrace, hhm]
          rw [this]; exact .pair m _ ih
        | Empty =>
          have : runTrace h (m :: rest) = [Ev.invokeStart m, Ev.invokeEnd m] := by
            simp [runTrace, hhm]
          rw [this]; exact .pair m _ .nil
        | Ignore =>
          have : runTrace h (m :: rest) = [Ev.invokeStart m, Ev.invokeEnd m] := by
            simp [runTrace, hhm]
          rw [this]; exact .pair m _ .nil
        | Stopped =>
          have : runTrace h (m :: rest) = [Ev.invokeStart m, Ev.invokeEnd m] := by
            simp [runTrace, hhm]
          rw [this]; exact .pair m _ .nil
      | error e =>
        have : runTrace h (m :: rest) = [Ev.invokeStart m, Ev.invokeEnd m] := by
          simp [runTrace, hhm]
        rw [this]; exact .pair m _ .nil
  · induction msgs with
    | nil => rfl
    | cons m rest ih =>
      simp [runTrace, handledMsgs_cons]
      simpa [handledMsgs] using ih

/-- C10: for an actor started through `actor_of`, the dispatch task owns an
`ActorContext` holding a clone of the actor's own send handle for the whole
lifetime of the loop, so in every reachable configuration in which the loop
has not returned there is at least one live sender, `receive_next` never
observes the disconnected state, and the only transitions into an exited
phase come out of an invocation of the behavior. -/
theorem c10_context_sender_invariant {T : Type}
    (h : T → Except (Error T) Behaviors) (c : Config T)
    (hr : Reachable h c) (hlive : c.phase.isExited = false) :
    c.mb.ctxAlive = true ∧
    1 ≤ c.mb.senderCount ∧
    (receiveNextObs c.mb).isDisconnected = false ∧
    (∀ c2, Step h c c2 → c2.phase.isExited = true → ∃ m, c.phase = .handling m) := by
  have hinv := reachable_liveInv hr
  have hca : c.mb.ctxAlive = true := (hinv.1 hlive).1
  have hcount : 1 ≤ c.mb.senderCount := by
    simp [Mailbox.senderCount, hca]
  refine ⟨hca, hcount, ?_, ?_⟩
  · cases hq : c.mb.queue with
    | nil =>
      have : c.mb.senderCount ≠ 0 := by omega
      simp [receiveNextObs, hq, this, RecvOutcome.isDisconnected]
    | cons m q => simp [receiveNextObs, hq, RecvOutcome.isDisconnected]
  · intro c2 hs hex
    cases hs <;> simp_all [Phase.isExited]

theorem c10_witness :
    (initConfig Nat).phase.isExited = false ∧ (initConfig Nat).mb.ctxAlive = true :=
  ⟨rfl,
    (c10_context_sender_invariant (fun _ : Nat => Except.ok Behaviors.Same)
      (initConfig Nat) Relation.ReflTransGen.refl rfl).1⟩

/-- C2: whenever the dispatch loop exits with any `Error<T>` outcome — in
particular right after a handler directive reduced to `Stopped` — the
receive endpoint is dropped in the very same transition, so every
subsequent `tell` on any remaining handle fails returning the message, and
every pending or future `wait_for_stop` call has resolved, with no further
message required; and this persists under all further steps. -/
theorem c2_exit_drops_receiver {T : Type} (h : T → Except (Error T) Behaviors)
    (c c2 : Config T) (e : Error T) (hr : Reachable h c) (hs : Step h c c2)
    (hex : c2.phase = .exited e) :
    c2.mb.rxOpen = false ∧
    (∀ m, (tell c2.mb m).2 = Except.error ⟨m⟩) ∧
    waitForStopResolved c2.mb = true ∧
    (∀ c3, Relation.ReflTransGen (Step h) c2 c3 →
      (∀ m, (tell c3.mb m).2 = Except.error ⟨m⟩) ∧
      waitForStopResolved c3.mb = true) := by
  have hinv := reachable_liveInv hr
  have hdead : DeadInv e c2 := by
    cases hs <;> simp_all [DeadInv, LiveInv, Phase.isExited]
  obtain ⟨hph, hro, hca⟩ := hdead
  refine ⟨hro, ?_, ?_, ?_⟩
  · intro m; simp [tell, sendTx, hro]
  · simp [waitForStopResolved, tx_is_closed, hro]
  · intro c3 hsteps
    obtain ⟨hph3, hro3, hca3⟩ := steps_preserve_deadInv hsteps ⟨hph, hro, hca⟩
    exact ⟨fun m => by simp [tell, sendTx, hro3],
      by simp [waitForStopResolved, tx_is_closed, hro3]⟩

theorem c2_witness :
    (tell (⟨[], 1, false, false⟩ : Mailbox Nat) 5).2 = Except.error ⟨5⟩ ∧
    waitForStopResolved (⟨[], 1, false, false⟩ : Mailbox Nat) = true := by
  have h1 : Step (fun _ : Nat => Except.ok Behaviors.Stopped)
      (initConfig Nat) ⟨⟨[0], 1, true, true⟩, .running⟩ :=
    Step.tellOk [] 0 true .running 0
  have h2 : Step (fun _ : Nat => Except.ok Behaviors.Stopped)
      ⟨⟨[0], 1, true, true⟩, .running⟩ ⟨⟨[], 1, true, true⟩, .handling 0⟩ :=
    Step.fetchRun 0 [] 1 true true
  have hr : Reachable (fun _ : Nat => Except.ok Behaviors.Stopped)
      ⟨⟨[], 1, true, true⟩, .handling 0⟩ :=
    Relation.ReflTransGen.tail (Relation.ReflTransGen.tail Relation.ReflTransGen.refl h1) h2
  have hstep : Step (fun _ : Nat => Except.ok Behaviors.Stopped)
      ⟨⟨[], 1, true, true⟩, .handling 0⟩ ⟨⟨[], 1, false, false⟩, .exited .Stopped⟩ :=
    Step.handleStop [] 1 true true 0 rfl
  have hall := c2_exit_drops_receiver (fun _ : Nat => Except.ok Behaviors.Stopped)
    ⟨⟨[], 1, true, true⟩, .handling 0⟩ ⟨⟨[], 1, false, false⟩, .exited .Stopped⟩
    (Error.Stopped) hr hstep rfl
  exact ⟨hall.2.1 5, hall.2.2.1⟩

/-- C1: the claim fails on the code. After every external handle is dropped
with the actor still Running and nothing sent, the configuration is
reachable but stuck: the sender clone inside the dispatch task's own
`ActorContext` keeps the channel connected, so `receive_next` observes
`blocked` (the task parks in `rx.recv().await`) instead of disconnected, no
step at all is enabled, and the loop never exits with `Error::NoActorRef`.
The source acknowledges the slip in src/actor.rs line 32 (`TODO weak`). -/
theorem c1_abandonment_suspends_forever :
    Reachable (fun _ : Nat => Except.ok Behaviors.Same)
      ⟨⟨[], 0, true, true⟩, .running⟩ ∧
    (∀ c2, Step (fun _ : Nat => Except.ok Behaviors.Same)
      ⟨⟨[], 0, true, true⟩, .running⟩ c2 → False) ∧
    receiveNextObs (⟨[], 0, true, true⟩ : Mailbox Nat) = RecvOutcome.blocked ∧
    (⟨⟨[], 0, true, true⟩, .running⟩ : Config Nat).phase.isExited = false := by
  refine ⟨?_, ?_, by simp [receiveNextObs, Mailbox.senderCount], rfl⟩
  · exact Relation.ReflTransGen.tail Relation.ReflTransGen.refl
      (Step.dropRef [] 0 true true .running)
  · intro c2 hs
    cases hs

/-- C3: the first part of the claim holds on the code — after an `Empty`
directive the loop drains without ever invoking the behavior again, the
receive endpoint stays open, `tell` keeps succeeding and `wait_for_stop`
stays pending — but the final part fails: once every external handle is
dropped the drain loop does not exit with `NoActorRef`; the context's
sender clone keeps the channel connected and the configuration is stuck
with the task parked in `rx.recv().await`. -/
theorem c3_drain_keeps_endpoint_open_never_exits :
    Reachable (fun _ : Nat => Except.ok Behaviors.Empty)
      ⟨⟨[], 1, true, true⟩, .draining⟩ ∧
    (tell (⟨[], 1, true, true⟩ : Mailbox Nat) 7).2 = Except.ok () ∧
    waitForStopResolved (⟨[], 1, true, true⟩ : Mailbox Nat) = false ∧
    Reachable (fun _ : Nat => Except.ok Behaviors.Empty)
      ⟨⟨[], 0, true, true⟩, .draining⟩ ∧
    (∀ c2, Step (fun _ : Nat => Except.ok Behaviors.Empty)
      ⟨⟨[], 0, true, true⟩, .draining⟩ c2 → False) ∧
    receiveNextObs (⟨[], 0, true, true⟩ : Mailbox Nat) = RecvOutcome.blocked := by
  have h1 : Step (fun _ : Nat => Except.ok Behaviors.Empty)
      (initConfig Nat) ⟨⟨[0], 1, true, true⟩, .running⟩ :=
    Step.tellOk [] 0 true .running 0
  have h2 : Step (fun _ : Nat => Except.ok Behaviors.Empty)
      ⟨⟨[0], 1, true, true⟩, .running⟩ ⟨⟨[], 1, true, true⟩, .handling 0⟩ :=
    Step.fetchRun 0 [] 1 true true
  have h3 : Step (fun _ : Nat => Except.ok Behaviors.Empty)
      ⟨⟨[], 1, true, true⟩, .handling 0⟩ ⟨⟨[], 1, true, true⟩, .draining⟩ :=
    Step.handleEmpty ⟨[], 1, true, true⟩ 0 rfl
  have hr1 : Reachable (fun _ : Nat => Except.ok Behaviors.Empty)
      ⟨⟨[], 1, true, true⟩, .draining⟩ :=
    Relation.ReflTransGen.tail
      (Relation.ReflTransGen.tail
        (Relation.ReflTransGen.tail Relation.ReflTransGen.refl h1) h2) h3
  refine ⟨hr1, by simp [tell, sendTx],
    by simp [waitForStopResolved, tx_is_closed], ?_, ?_,
    by simp [receiveNextObs, Mailbox.senderCount]⟩
  · exact Relation.ReflTransGen.tail hr1 (Step.dropRef [] 0 true true .draining)
  · intro c2 hs
    cases hs

end Elliot
